import Mathlib

/-!
Verification development for the musiclip repository.

The vector-index collection is modelled as a list of records (ChromaDB keeps
ids with embeddings and metadata; its dict-of-parallel-lists query response is
modelled as a list of aligned triples). External collaborators (catalog API,
object store, embedding server, transcoder) are modelled by oracle records
that fix the outcome of each outbound call; the repository code under
verification is the sequencing, field mapping and error translation around
those calls, translated here function by function from
`services/catalogue-builder/build_catalogue.py`,
`services/backend/server.py` and `services/query-client/query.py`.
-/

/-- Metadata stored with each indexed song, as built in `add_song_to_chromadb`. -/
structure SongMetadata where
  song_id : String
  song_name : String
  album_name : String
  artist_name : String
  release_date : String
  genres : String
deriving DecidableEq, Repr

/-- One record of the `music_embeddings` collection. -/
structure IndexRec where
  id : String
  embedding : List ℚ
  metadata : SongMetadata
deriving DecidableEq, Repr

/-- Model of the ids field of a `collection.get` call: the ids of the records stored at `songId`. -/
def collGetIds (coll : List IndexRec) (songId : String) : List String :=
  (coll.filter (fun r => r.id = songId)).map (fun r => r.id)

/-- Model of `collection.delete`: removes every record stored at `songId`. -/
def collDelete (coll : List IndexRec) (songId : String) : List IndexRec :=
  coll.filter (fun r => ¬ r.id = songId)

/-- Model of `collection.add` with ids, embeddings and metadatas: appends a record. -/
def collAdd (coll : List IndexRec) (r : IndexRec) : List IndexRec :=
  coll ++ [r]

/-- The metadata dict assembled at the top of `add_song_to_chromadb`. -/
def mkSongMetadata (songId songName albumName artistName releaseDate : String)
    (genres : List String) : SongMetadata :=
  { song_id := songId
    song_name := songName
    album_name := albumName
    artist_name := artistName
    release_date := releaseDate
    genres := if genres.isEmpty then "" else String.intercalate ", " genres }

/-- Outcome dict of `add_song_to_chromadb`. -/
structure AddOutcome where
  success : Bool
  message : String
deriving DecidableEq, Repr

/-- Result of `add_song_to_chromadb`: its outcome dict plus the collection state. -/
structure AddOut where
  outcome : AddOutcome
  coll : List IndexRec
deriving DecidableEq, Repr

/-- Translation of `add_song_to_chromadb`: looks up the id, deletes any existing
record, then adds the new one. The inner existence-check/delete round-trip sits in
its own try block whose handler is a bare pass: `deleteFail = true` is the oracle
for that round-trip raising — the exception is swallowed, no record is deleted,
and execution falls through to `collection.add` with the collection unchanged.
`addOk` is the oracle for the `collection.add` call (its failure is caught by the
surrounding handler and reported as a failure dict). -/
def add_song_to_chromadb (songId songName albumName artistName releaseDate : String)
    (genres : List String) (embedding : List ℚ) (deleteFail addOk : Bool)
    (coll : List IndexRec) : AddOut :=
  let metadata := mkSongMetadata songId songName albumName artistName releaseDate genres
  let coll₁ :=
    if deleteFail then coll
    else if (collGetIds coll songId).isEmpty then coll else collDelete coll songId
  if addOk then
    { outcome := { success := true, message := "Added to ChromaDB: " ++ songName }
      coll := collAdd coll₁ { id := songId, embedding := embedding, metadata := metadata } }
  else
    { outcome := { success := false, message := "Error adding to ChromaDB" }
      coll := coll₁ }

/-- Translation of `song_exists_in_chromadb`: a `collection.get` lookup then a length check; any exception
from the lookup (modelled by `lookupFail = some _`) is caught and yields `false`. -/
def song_exists_in_chromadb (songId : String) (coll : List IndexRec)
    (lookupFail : Option String) : Bool :=
  match lookupFail with
  | some _ => false
  | none => decide (0 < (collGetIds coll songId).length)

/-- Name of the temporary `.m4a` download created by `download_and_convert_preview`. -/
def tempM4aFile : String := "temp.m4a"

/-- Name of the temporary `.wav` transcoder output created by `download_and_convert_preview`. -/
def tempWavFile : String := "temp.wav"

/-- Oracle for one `download_and_convert_preview` call: whether the HTTP download
succeeds, the transcoder exit status, and its diagnostic text. -/
structure ConvertEnv where
  downloadOk : Bool
  downloadErrMsg : String
  ffmpegReturncode : Int
  ffmpegStderr : String
deriving DecidableEq, Repr

/-- Result dict of `download_and_convert_preview`. -/
structure ConvertResult where
  success : Bool
  wavPath : Option String
  message : String
deriving DecidableEq, Repr

/-- Result of `download_and_convert_preview` plus the set of temporary files that
still exist on disk when the call returns. -/
structure ConvertOut where
  result : ConvertResult
  fs : List String
deriving DecidableEq, Repr

/-- Translation of `download_and_convert_preview`: creates the two temp files, downloads, runs the
transcoder, and unlinks the `.m4a` on every path; on transcoder failure it unlinks
the partial `.wav` too; on an exception both unlinks are attempted before the outer
handler returns the failure dict. -/
def download_and_convert_preview (env : ConvertEnv) : ConvertOut :=
  if ¬ env.downloadOk then
    { result := { success := false, wavPath := none
                  message := "Error: " ++ env.downloadErrMsg }
      fs := [] }
  else if ¬ env.ffmpegReturncode = 0 then
    { result := { success := false, wavPath := none
                  message := "ffmpeg error: " ++ env.ffmpegStderr }
      fs := [] }
  else
    { result := { success := true, wavPath := some tempWavFile
                  message := "Successfully converted to WAV" }
      fs := [tempWavFile] }

/-- Song attributes from the catalog payload (`data[0].attributes`); every field is
optional since the code reads them with `.get` and defaults. `previews` is the list
of preview objects, each with an optional `url`. -/
structure SongAttrs where
  name : Option String
  albumName : Option String
  artistName : Option String
  releaseDate : Option String
  genreNames : List String
  previews : List (Option String)
deriving DecidableEq, Repr

/-- One element of the catalog response `data` array. -/
structure CatalogSong where
  attributes : SongAttrs
deriving DecidableEq, Repr

/-- Tagged result of `get_catalog_song`: the success flag and the `data` array of
the response body (an absent `data` key is the empty list). -/
structure CatalogResult where
  success : Bool
  data : List CatalogSong
deriving DecidableEq, Repr

/-- Preview-URL extraction: the url of the first preview object when the previews list is nonempty, else none. -/
def extractPreviewUrl (attrs : SongAttrs) : Option String :=
  match attrs.previews with
  | [] => none
  | p :: _ => p

/-- Falsiness test applied to the extracted preview URL: none and the empty string are both falsy. -/
def previewMissing (u : Option String) : Bool :=
  match u with
  | none => true
  | some s => s.isEmpty

/-- Oracle for one `process_song` call: the outcome of every outbound call it makes. -/
structure SongEnv where
  lookupFail : Option String
  catalog : CatalogResult
  convert : ConvertEnv
  uploadOk : Bool
  uploadErrMsg : String
  embedResult : Option (List ℚ)
  embedErrMsg : String
  deleteFail : Bool
  addOk : Bool
deriving DecidableEq, Repr

/-- The externally visible calls `process_song` can make, in order. -/
inductive Effect where
  | fetchCatalog
  | downloadTranscode
  | uploadStore
  | embedAudio
  | indexWrite
deriving DecidableEq, Repr

/-- Status/message dict returned by `process_song`. -/
structure SongOutcome where
  status : String
  message : String
deriving DecidableEq, Repr

/-- One `process_song` run: its outcome dict, the collection state afterwards, the
ordered log of outbound calls, and the temporary files left on disk. -/
structure SongRun where
  outcome : SongOutcome
  coll : List IndexRec
  effects : List Effect
  fs : List String
deriving DecidableEq, Repr

/-- Translation of `process_song`: skip check, catalog fetch, preview extraction, download and
transcode, upload, embed, index write — with the `finally` that unlinks the WAV on
every exit path after it was created. -/
def process_song (env : SongEnv) (trackId : String) (skipExisting : Bool)
    (coll : List IndexRec) : SongRun :=
  if skipExisting && song_exists_in_chromadb trackId coll env.lookupFail then
    { outcome := { status := "skipped", message := "Already in database" }
      coll := coll, effects := [], fs := [] }
  else if ¬ env.catalog.success then
    { outcome := { status := "failed", message := "Failed to fetch song details" }
      coll := coll, effects := [.fetchCatalog], fs := [] }
  else
    match env.catalog.data with
    | [] =>
      { outcome := { status := "failed", message := "No song data available" }
        coll := coll, effects := [.fetchCatalog], fs := [] }
    | song :: _ =>
      let attrs := song.attributes
      if previewMissing (extractPreviewUrl attrs) then
        { outcome := { status := "failed", message := "No preview URL available" }
          coll := coll, effects := [.fetchCatalog], fs := [] }
      else
        let dc := download_and_convert_preview env.convert
        if ¬ dc.result.success then
          { outcome := { status := "failed"
                         message := "Conversion failed: " ++ dc.result.message }
            coll := coll, effects := [.fetchCatalog, .downloadTranscode], fs := dc.fs }
        else
          -- from here the inner `finally` unlinks the WAV on every exit path
          let fsFinal := dc.fs.filter (fun f => ¬ f = tempWavFile)
          if ¬ env.uploadOk then
            { outcome := { status := "failed"
                           message := "Upload failed: " ++ env.uploadErrMsg }
              coll := coll
              effects := [.fetchCatalog, .downloadTranscode, .uploadStore]
              fs := fsFinal }
          else
            match env.embedResult with
            | none =>
              { outcome := { status := "failed", message := env.embedErrMsg }
                coll := coll
                effects := [.fetchCatalog, .downloadTranscode, .uploadStore, .embedAudio]
                fs := fsFinal }
            | some embedding =>
              let added := add_song_to_chromadb trackId (attrs.name.getD "Unknown")
                (attrs.albumName.getD "Unknown") (attrs.artistName.getD "Unknown")
                (attrs.releaseDate.getD "Unknown") attrs.genreNames embedding
                env.deleteFail env.addOk coll
              if added.outcome.success then
                { outcome := { status := "success", message := "Successfully indexed" }
                  coll := added.coll
                  effects := [.fetchCatalog, .downloadTranscode, .uploadStore,
                    .embedAudio, .indexWrite]
                  fs := fsFinal }
              else
                { outcome := { status := "failed", message := added.outcome.message }
                  coll := added.coll
                  effects := [.fetchCatalog, .downloadTranscode, .uploadStore,
                    .embedAudio, .indexWrite]
                  fs := fsFinal }

/-- One entry of the playlist `relationships.tracks.data` array. -/
structure Track where
  id : String
  name : Option String
  artistName : Option String
deriving DecidableEq, Repr

/-- The three counters accumulated by the `process_playlist` loop. -/
structure Counts where
  processed : Nat
  skipped : Nat
  failed : Nat
deriving DecidableEq, Repr

/-- Loop state of `process_playlist`: the counters plus the collection. -/
structure TracksAcc where
  counts : Counts
  coll : List IndexRec
deriving DecidableEq, Repr

/-- The `for track in track_list` loop of `process_playlist`: each track is paired
with the oracle for its `process_song` call; exactly one counter is bumped per
track according to the returned status. -/
def processTracksLoop (skipExisting : Bool) :
    List (Track × SongEnv) → TracksAcc → TracksAcc
  | [], acc => acc
  | te :: rest, acc =>
    let run := process_song te.2 te.1.id skipExisting acc.coll
    let c := acc.counts
    let c' :=
      if run.outcome.status = "success" then
        { c with processed := c.processed + 1 }
      else if run.outcome.status = "skipped" then
        { c with skipped := c.skipped + 1 }
      else
        { c with failed := c.failed + 1 }
    processTracksLoop skipExisting rest { counts := c', coll := run.coll }

/-- One element of the playlist response `data` array: whether the
`relationships.tracks` key is present, and the track list (`tracks.get("data", [])`),
each track carrying the oracle for its iteration. -/
structure PlaylistObj where
  hasTracksRel : Bool
  tracks : List (Track × SongEnv)
deriving DecidableEq, Repr

/-- Oracle for one `process_playlist` run: configuration checks, token generation,
index connection, and the playlist fetch. -/
structure PlaylistEnv where
  credsOk : Bool
  keyFileExists : Bool
  tokenOk : Bool
  chromaOk : Bool
  fetchSuccess : Bool
  fetchErrMsg : String
  playlistData : List PlaylistObj
deriving DecidableEq, Repr

/-- The summary dict returned by `process_playlist`. -/
structure RunSummary where
  success : Bool
  message : String
  total : Nat
  processed : Nat
  skipped : Nat
  failed : Nat
deriving DecidableEq, Repr

/-- A failure return of `process_playlist` (no counters in the dict). -/
def runFailure (msg : String) : RunSummary :=
  { success := false, message := msg, total := 0, processed := 0, skipped := 0, failed := 0 }

/-- Result of `process_playlist`: summary dict plus the collection state. -/
structure PlaylistOut where
  summary : RunSummary
  coll : List IndexRec
deriving DecidableEq, Repr

/-- Translation of `process_playlist`: credential and key-file checks, token generation and index
connection (exceptions land in the outer handler), playlist fetch, payload checks,
then the sequential per-track loop; individual track failures only bump a counter. -/
def process_playlist (env : PlaylistEnv) (skipExisting : Bool)
    (coll : List IndexRec) : PlaylistOut :=
  if ¬ env.credsOk then
    { summary := runFailure "Apple Music credentials not configured. Set APPLE_KEY_ID and APPLE_TEAM_ID environment variables."
      coll := coll }
  else if ¬ env.keyFileExists then
    { summary := runFailure "Apple Music key file not found"
      coll := coll }
  else if ¬ env.tokenOk then
    { summary := runFailure "Error processing playlist: token generation failed"
      coll := coll }
  else if ¬ env.chromaOk then
    { summary := runFailure "Error processing playlist: ChromaDB connection error"
      coll := coll }
  else if ¬ env.fetchSuccess then
    { summary := runFailure ("Failed to fetch playlist: " ++ env.fetchErrMsg)
      coll := coll }
  else
    match env.playlistData with
    | [] =>
      { summary := runFailure "No playlist data available", coll := coll }
    | pl :: _ =>
      if ¬ pl.hasTracksRel then
        { summary := runFailure "No tracks found in playlist", coll := coll }
      else
        let fin := processTracksLoop skipExisting pl.tracks
          { counts := { processed := 0, skipped := 0, failed := 0 }, coll := coll }
        { summary :=
            { success := true, message := ""
              total := pl.tracks.length
              processed := fin.counts.processed
              skipped := fin.counts.skipped
              failed := fin.counts.failed }
          coll := fin.coll }

/-- The JWT claims assembled by `generate_apple_developer_token`; time is modelled
as whole seconds since the epoch, `now` being the single instant of issuance. -/
structure TokenPayload where
  iss : String
  iat : Nat
  exp : Nat
deriving DecidableEq, Repr

/-- Seconds in one day (`timedelta(days=...)`). -/
def secondsPerDay : Nat := 86400

/-- Translation of `generate_apple_developer_token`: iat is now and,
`exp = now + timedelta(days=min(expiration_days, 180))`. -/
def generate_apple_developer_token (teamId : String) (now : Nat)
    (expirationDays : Nat) : TokenPayload :=
  { iss := teamId
    iat := now
    exp := now + min expirationDays 180 * secondsPerDay }

/-- One aligned row of a ChromaDB query response: id, distance, metadata. -/
abbrev QueryRow := String × ℚ × SongMetadata

/-- A shaped result as built by `format_results` in both query services. -/
structure QueryResult where
  id : String
  distance : ℚ
  cosine_similarity : ℚ
  metadata : SongMetadata
  audio_url : String
deriving DecidableEq, Repr

/-- Translation of `get_audio_url` and `get_minio_url`: base slash id dot wav. -/
def getAudioUrl (base songId : String) : String :=
  base ++ "/" ++ songId ++ ".wav"

/-- Translation of `format_results`: shapes every raw row into a `QueryResult`, attaching
`cosine_similarity = 1 - distance` and the deterministic audio URL. -/
def format_results (base : String) (raw : List QueryRow) : List QueryResult :=
  raw.map (fun r =>
    { id := r.1, distance := r.2.1, cosine_similarity := 1 - r.2.1
      metadata := r.2.2, audio_url := getAudioUrl base r.1 })

/-- Model of a `collection.query` call: the index collaborator
returns the collection ranked by ascending distance to the query vector, truncated
to `n`.  `ranked` is that ranking. -/
def collectionQuery (ranked : List QueryRow) (nResults : Nat) : List QueryRow :=
  ranked.take nResults

/-- Translation of `query_music`: embeds the text (external) and queries the index for `topK`
neighbors; the raw index response is returned unchanged. -/
def query_music (ranked : List QueryRow) (topK : Nat) : List QueryRow :=
  collectionQuery ranked topK

/-- Translation of `query_music_by_id`: a get on the id (absent id raises the
not-found `ValueError`), query for `topK + 1` neighbors with the stored vector,
drop every row whose id equals the queried id, truncate to `topK`. -/
def query_music_by_id (ranked : List QueryRow) (songId : String)
    (topK : Nat) : Except String (List QueryRow) :=
  if songId ∈ ranked.map (fun r => r.1) then
    .ok (((collectionQuery ranked (topK + 1)).filter
      (fun r => ¬ r.1 = songId)).take topK)
  else
    .error ("Song ID " ++ songId ++ " not found in database.")

/-! ### Helper lemmas -/

theorem collGetIds_empty (coll : List IndexRec) (songId : String)
    (h : (collGetIds coll songId).isEmpty = true) :
    coll.filter (fun r => r.id = songId) = [] := by
  simpa [collGetIds, List.isEmpty_iff, List.map_eq_nil_iff] using h

theorem collDelete_filter_self (coll : List IndexRec) (songId : String) :
    (collDelete coll songId).filter (fun r => r.id = songId) = [] := by
  rw [List.filter_eq_nil_iff]
  intro r hr
  have h := (List.mem_filter.mp hr).2
  simp only [decide_eq_true_eq] at h ⊢
  exact h

theorem collDelete_idem (coll : List IndexRec) (songId : String) :
    collDelete (collDelete coll songId) songId = collDelete coll songId := by
  simp [collDelete, List.filter_filter]

/-! ### Claims -/

/-- Sample collection used by witnesses: two indexed songs "A" and "B". -/
def wRecA : IndexRec :=
  { id := "A", embedding := [0], metadata := mkSongMetadata "A" "Old" "OldAl" "OldAr" "2019" [] }

/-- Second sample record. -/
def wRecB : IndexRec :=
  { id := "B", embedding := [2], metadata := mkSongMetadata "B" "Bee" "BAl" "BAr" "2018" ["Jazz"] }

/-- Sample collection holding `wRecA` and `wRecB`. -/
def wColl : List IndexRec := [wRecA, wRecB]

/-- Counterexample to C1 as stated: with a record already stored at "A", when the
inner existence-check/delete round-trip raises (its exception is swallowed by the
bare pass) and the subsequent `collection.add` succeeds, `add_song_to_chromadb`
returns success yet the collection holds two records at "A" — the stale record
lingers and a duplicate is appended. -/
theorem upsert_replaces_record_counterexample :
    (add_song_to_chromadb "A" "New" "NewAl" "NewAr" "2021" ["Pop"] [1] true true
      wColl).outcome.success = true ∧
    ((add_song_to_chromadb "A" "New" "NewAl" "NewAr" "2021" ["Pop"] [1] true true
        wColl).coll.filter (fun r => r.id = "A")).length = 2 ∧
    wRecA ∈ (add_song_to_chromadb "A" "New" "NewAl" "NewAr" "2021" ["Pop"] [1] true true
      wColl).coll :=
  ⟨by decide, by decide, by decide⟩

/-- Claim C1 (amended): provided the swallowed existence-check/delete round-trip
does not fail, after `add_song_to_chromadb` returns success the collection holds
exactly one record for the id — the newly supplied embedding and metadata — and
every record at another id is untouched, so a pre-existing record at the id is
replaced, never duplicated. When that round-trip does fail, the code tolerates it
and the stale record survives into the add (see the counterexample). -/
theorem upsert_replaces_record
    (songId songName albumName artistName releaseDate : String)
    (genres : List String) (embedding : List ℚ) (deleteFail addOk : Bool)
    (coll : List IndexRec)
    (hdel : deleteFail = false)
    (h : (add_song_to_chromadb songId songName albumName artistName releaseDate genres
      embedding deleteFail addOk coll).outcome.success = true) :
    (add_song_to_chromadb songId songName albumName artistName releaseDate genres
        embedding deleteFail addOk coll).coll.filter (fun r => r.id = songId) =
      [{ id := songId, embedding := embedding
         metadata := mkSongMetadata songId songName albumName artistName releaseDate genres }] ∧
    collDelete (add_song_to_chromadb songId songName albumName artistName releaseDate genres
        embedding deleteFail addOk coll).coll songId = collDelete coll songId := by
  subst hdel
  cases addOk with
  | false => simp [add_song_to_chromadb] at h
  | true =>
    clear h
    by_cases he : (collGetIds coll songId).isEmpty
    · constructor
      · simp [add_song_to_chromadb, he, collAdd, List.filter_append,
          collGetIds_empty coll songId he]
      · simp [add_song_to_chromadb, he, collAdd, collDelete, List.filter_append]
    · constructor
      · simp [add_song_to_chromadb, he, collAdd, List.filter_append,
          collDelete_filter_self]
      · have hstep : (add_song_to_chromadb songId songName albumName artistName
            releaseDate genres embedding false true coll).coll =
            collDelete coll songId ++
              [{ id := songId, embedding := embedding
                 metadata := mkSongMetadata songId songName albumName artistName releaseDate genres }] := by
          simp [add_song_to_chromadb, he, collAdd]
        rw [hstep]
        rw [show collDelete (collDelete coll songId ++
          [{ id := songId, embedding := embedding
             metadata := mkSongMetadata songId songName albumName artistName releaseDate genres }]) songId =
          (collDelete (collDelete coll songId) songId) ++ (collDelete
            [{ id := songId, embedding := embedding
               metadata := mkSongMetadata songId songName albumName artistName releaseDate genres }] songId)
          from by simp [collDelete, List.filter_append]]
        simp [collDelete_idem, collDelete]

/-- Witness for the amended C1 at a concrete collection already holding a record
for "A", with the existence-check/delete round-trip succeeding. -/
theorem upsert_replaces_record_witness :
    (add_song_to_chromadb "A" "New" "NewAl" "NewAr" "2021" ["Pop"] [1] false true
      wColl).outcome.success = true ∧
    ((add_song_to_chromadb "A" "New" "NewAl" "NewAr" "2021" ["Pop"] [1] false true
        wColl).coll.filter (fun r => r.id = "A") =
      [{ id := "A", embedding := [1]
         metadata := mkSongMetadata "A" "New" "NewAl" "NewAr" "2021" ["Pop"] }] ∧
      collDelete (add_song_to_chromadb "A" "New" "NewAl" "NewAr" "2021" ["Pop"] [1] false true
          wColl).coll "A" =
        collDelete wColl "A") :=
  ⟨by decide, upsert_replaces_record "A" "New" "NewAl" "NewAr" "2021" ["Pop"] [1] false true
    wColl rfl (by decide)⟩

/-- A `process_playlist` oracle whose setup steps all succeed and whose playlist
holds the single track `t`, processed with the oracle `senv`. -/
def singleTrackPlaylistEnv (t : Track) (senv : SongEnv) : PlaylistEnv :=
  { credsOk := true, keyFileExists := true, tokenOk := true, chromaOk := true
    fetchSuccess := true, fetchErrMsg := ""
    playlistData := [{ hasTracksRel := true, tracks := [(t, senv)] }] }

/-- Claim C2: with skip enabled, a track already present in the index is reported
`skipped` with no catalog fetch, no download, no upload, no embed and no index
write, the collection unchanged; re-running ingestion of that single song yields a
summary of processed 0, skipped 1, failed 0. -/
theorem skip_existing_no_effects
    (env : SongEnv) (trackId : String) (coll : List IndexRec)
    (hfail : env.lookupFail = none)
    (hmem : 0 < (collGetIds coll trackId).length) :
    (process_song env trackId true coll).outcome.status = "skipped" ∧
    (process_song env trackId true coll).effects = [] ∧
    (process_song env trackId true coll).coll = coll ∧
    (process_song env trackId true coll).fs = [] ∧
    ∀ t : Track, t.id = trackId →
      (process_playlist (singleTrackPlaylistEnv t env) true coll).summary.processed = 0 ∧
      (process_playlist (singleTrackPlaylistEnv t env) true coll).summary.skipped = 1 ∧
      (process_playlist (singleTrackPlaylistEnv t env) true coll).summary.failed = 0 := by
  have hex : song_exists_in_chromadb trackId coll env.lookupFail = true := by
    simp [song_exists_in_chromadb, hfail, hmem]
  have hrun : process_song env trackId true coll =
      { outcome := { status := "skipped", message := "Already in database" }
        coll := coll, effects := [], fs := [] } := by
    simp [process_song, hex]
  refine ⟨by rw [hrun], by rw [hrun], by rw [hrun], by rw [hrun], ?_⟩
  intro t ht
  simp [process_playlist, singleTrackPlaylistEnv, processTracksLoop, ht, hrun]

/-- Sample song attributes with a preview URL, used by witnesses. -/
def wAttrs : SongAttrs :=
  { name := some "New", albumName := some "NewAl", artistName := some "NewAr"
    releaseDate := some "2021", genreNames := ["Pop"], previews := [some "http://preview"] }

/-- Sample all-success `process_song` oracle. -/
def wSongEnvOk : SongEnv :=
  { lookupFail := none
    catalog := { success := true, data := [{ attributes := wAttrs }] }
    convert := { downloadOk := true, downloadErrMsg := ""
                 ffmpegReturncode := 0, ffmpegStderr := "" }
    uploadOk := true, uploadErrMsg := ""
    embedResult := some [1], embedErrMsg := ""
    deleteFail := false, addOk := true }

/-- Sample track with id "A". -/
def wTrackA : Track := { id := "A", name := some "Old", artistName := some "OldAr" }

/-- Witness for C2: song "A" is already in `wColl`, so a skip-enabled run skips it. -/
theorem skip_existing_no_effects_witness :
    wSongEnvOk.lookupFail = none ∧ 0 < (collGetIds wColl "A").length ∧
    (process_song wSongEnvOk "A" true wColl).outcome.status = "skipped" ∧
    (process_song wSongEnvOk "A" true wColl).effects = [] ∧
    (process_song wSongEnvOk "A" true wColl).coll = wColl ∧
    (process_song wSongEnvOk "A" true wColl).fs = [] ∧
    (process_playlist (singleTrackPlaylistEnv wTrackA wSongEnvOk) true
      wColl).summary.skipped = 1 :=
  ⟨rfl, by decide,
   (skip_existing_no_effects wSongEnvOk "A" wColl rfl (by decide)).1,
   (skip_existing_no_effects wSongEnvOk "A" wColl rfl (by decide)).2.1,
   (skip_existing_no_effects wSongEnvOk "A" wColl rfl (by decide)).2.2.1,
   (skip_existing_no_effects wSongEnvOk "A" wColl rfl (by decide)).2.2.2.1,
   ((skip_existing_no_effects wSongEnvOk "A" wColl rfl (by decide)).2.2.2.2
     wTrackA rfl).2.1⟩

/-- Total of the three playlist counters. -/
def countsSum (c : Counts) : Nat := c.processed + c.skipped + c.failed

theorem countsSum_bump (c : Counts) (s : String) :
    countsSum (if s = "success" then { c with processed := c.processed + 1 }
      else if s = "skipped" then { c with skipped := c.skipped + 1 }
      else { c with failed := c.failed + 1 }) = countsSum c + 1 := by
  by_cases h1 : s = "success"
  · simp [h1, countsSum]; omega
  · by_cases h2 : s = "skipped"
    · simp [h1, h2, countsSum]; omega
    · simp [h1, h2, countsSum]; omega

theorem processTracksLoop_sum (skip : Bool) (ts : List (Track × SongEnv)) :
    ∀ acc : TracksAcc,
      countsSum (processTracksLoop skip ts acc).counts = countsSum acc.counts + ts.length := by
  induction ts with
  | nil => intro acc; simp [processTracksLoop]
  | cons te rest ih =>
    intro acc
    simp only [processTracksLoop]
    rw [ih]
    rw [countsSum_bump]
    simp [Nat.add_comm, Nat.add_assoc, Nat.add_left_comm]

/-- Claim C3: when token generation, the index connection and the playlist fetch
all succeed, the run visits every fetched track exactly once, each contributing
one outcome, so processed + skipped + failed = total = number of tracks, and the
run as a whole reports success no matter how many individual tracks failed. -/
theorem playlist_run_summary (env : PlaylistEnv) (skipExisting : Bool)
    (coll : List IndexRec) (pl : PlaylistObj) (rest : List PlaylistObj)
    (h1 : env.credsOk = true) (h2 : env.keyFileExists = true) (h3 : env.tokenOk = true)
    (h4 : env.chromaOk = true) (h5 : env.fetchSuccess = true)
    (h6 : env.playlistData = pl :: rest) (h7 : pl.hasTracksRel = true) :
    (process_playlist env skipExisting coll).summary.success = true ∧
    (process_playlist env skipExisting coll).summary.total = pl.tracks.length ∧
    (process_playlist env skipExisting coll).summary.processed +
      (process_playlist env skipExisting coll).summary.skipped +
      (process_playlist env skipExisting coll).summary.failed =
      (process_playlist env skipExisting coll).summary.total := by
  have hsum := processTracksLoop_sum skipExisting pl.tracks
    { counts := { processed := 0, skipped := 0, failed := 0 }, coll := coll }
  simp only [process_playlist, h1, h2, h3, h4, h5, h6, h7]
  simp only [countsSum] at hsum
  simp_all

/-- Sample oracle whose catalog fetch fails. -/
def wSongEnvFetchFail : SongEnv :=
  { wSongEnvOk with catalog := { success := false, data := [] } }

/-- Sample track "C", not present in `wColl`. -/
def wTrackC : Track := { id := "C", name := none, artistName := none }

/-- Sample playlist object: one track whose processing fails. -/
def wPlaylistObj : PlaylistObj :=
  { hasTracksRel := true, tracks := [(wTrackC, wSongEnvFetchFail)] }

/-- Sample playlist oracle with all setup steps succeeding. -/
def wPlaylistEnv : PlaylistEnv :=
  { credsOk := true, keyFileExists := true, tokenOk := true, chromaOk := true
    fetchSuccess := true, fetchErrMsg := "", playlistData := [wPlaylistObj] }

/-- Witness for C3 on a one-track playlist whose only track fails: the run still
reports success and the counters add up to the total. -/
theorem playlist_run_summary_witness :
    wPlaylistEnv.credsOk = true ∧ wPlaylistEnv.keyFileExists = true ∧
    wPlaylistEnv.tokenOk = true ∧ wPlaylistEnv.chromaOk = true ∧
    wPlaylistEnv.fetchSuccess = true ∧
    wPlaylistEnv.playlistData = [wPlaylistObj] ∧ wPlaylistObj.hasTracksRel = true ∧
    ((process_playlist wPlaylistEnv true wColl).summary.success = true ∧
     (process_playlist wPlaylistEnv true wColl).summary.total = wPlaylistObj.tracks.length ∧
     (process_playlist wPlaylistEnv true wColl).summary.processed +
       (process_playlist wPlaylistEnv true wColl).summary.skipped +
       (process_playlist wPlaylistEnv true wColl).summary.failed =
       (process_playlist wPlaylistEnv true wColl).summary.total) :=
  ⟨rfl, rfl, rfl, rfl, rfl, rfl, rfl,
   playlist_run_summary wPlaylistEnv true wColl wPlaylistObj [] rfl rfl rfl rfl rfl rfl rfl⟩

/-- Claim C4: whenever the similarity-by-id query returns a result list, the
queried id itself is never in it: the k+1-neighbor query result is filtered of
every row whose id equals the queried id before truncation to k. -/
theorem query_by_id_excludes_self (ranked : List QueryRow) (songId : String)
    (k : Nat) (res : List QueryRow)
    (h : query_music_by_id ranked songId k = Except.ok res) :
    songId ∉ res.map (fun r => r.1) := by
  unfold query_music_by_id at h
  split at h
  · injection h with h
    subst h
    intro hmem
    obtain ⟨r, hr, hid⟩ := List.mem_map.mp hmem
    have hr' := List.mem_of_mem_take hr
    have hp := (List.mem_filter.mp hr').2
    simp only [decide_eq_true_eq] at hp
    exact hp hid
  · simp at h

/-- Sample ranked collection for the query-service witnesses: the collection as
ranked by ascending distance to the vector of song "A". -/
def wRanked : List QueryRow :=
  [("A", 0, wRecA.metadata), ("B", 1, wRecB.metadata)]

/-- Witness for C4: querying similars of "A" against `wRanked` never returns "A". -/
theorem query_by_id_excludes_self_witness :
    query_music_by_id wRanked "A" 1 = Except.ok [("B", 1, wRecB.metadata)] ∧
    "A" ∉ ([("B", (1 : ℚ), wRecB.metadata)] : List QueryRow).map (fun r => r.1) :=
  ⟨rfl, query_by_id_excludes_self wRanked "A" 1 _ rfl⟩

/-- Claim C5: the text query returns min(k, collection size) results, in ascending
distance order when the index ranking is ascending; the by-id query, on a
collection whose nearest record to the queried vector is the queried id itself and
whose ids are distinct, returns exactly the next min(k, n-1) records. -/
theorem query_result_lengths (self : QueryRow) (rest : List QueryRow)
    (songId : String) (k : Nat)
    (hsort : (((self :: rest)).map (fun r => r.2.1)).Pairwise (· ≤ ·))
    (hnd : (((self :: rest)).map (fun r => r.1)).Nodup)
    (hs : self.1 = songId) :
    (query_music (self :: rest) k).length = min k (self :: rest).length ∧
    ((query_music (self :: rest) k).map (fun r => r.2.1)).Pairwise (· ≤ ·) ∧
    query_music_by_id (self :: rest) songId k = Except.ok (rest.take k) ∧
    (rest.take k).length = min k rest.length := by
  have hmem : songId ∈ (self :: rest).map (fun r => r.1) := by
    simp [List.map_cons, ← hs]
  have hni : ∀ r ∈ rest.take k, (fun r : QueryRow => decide (¬ r.1 = songId)) r = true := by
    intro r hr
    have h1 : r.1 ∈ rest.map (fun r => r.1) :=
      List.mem_map.mpr ⟨r, List.mem_of_mem_take hr, rfl⟩
    simp only [List.map_cons] at hnd
    have h2 := (List.nodup_cons.mp hnd).1
    simp only [decide_eq_true_eq]
    intro hcon
    rw [hs] at h2
    rw [← hcon] at h2
    exact h2 h1
  refine ⟨?_, ?_, ?_, ?_⟩
  · simp [query_music, collectionQuery]
  · rw [query_music, collectionQuery, List.map_take]
    exact hsort.sublist (List.take_sublist _ _)
  · unfold query_music_by_id
    rw [if_pos hmem]
    have hraw : collectionQuery (self :: rest) (k + 1) = self :: rest.take k := by
      simp [collectionQuery]
    rw [hraw]
    have hfil : (self :: rest.take k).filter (fun r : QueryRow => ¬ r.1 = songId) =
        rest.take k := by
      simp only [List.filter_cons, hs]
      simp
      intro a q m hm2
      simpa using hni (a, q, m) hm2
    rw [hfil, List.take_take, Nat.min_self]
  · simp

/-- Nearest row for the C5 witness: song "A" itself at distance 0. -/
def wSelfRow : QueryRow := ("A", 0, wRecA.metadata)

/-- Remaining ranked rows for the C5 witness. -/
def wRestRows : List QueryRow := [("B", 1, wRecB.metadata)]

/-- Witness for C5 at a 2-item collection with k = 3. -/
theorem query_result_lengths_witness :
    ((wSelfRow :: wRestRows).map (fun r => r.2.1)).Pairwise (· ≤ ·) ∧
    ((wSelfRow :: wRestRows).map (fun r => r.1)).Nodup ∧
    wSelfRow.1 = "A" ∧
    (query_music (wSelfRow :: wRestRows) 3).length = min 3 (wSelfRow :: wRestRows).length ∧
    query_music_by_id (wSelfRow :: wRestRows) "A" 3 = Except.ok (wRestRows.take 3) :=
  ⟨by norm_num [wSelfRow, wRestRows], by decide, rfl,
   (query_result_lengths wSelfRow wRestRows "A" 3
     (by norm_num [wSelfRow, wRestRows]) (by decide) rfl).1,
   (query_result_lengths wSelfRow wRestRows "A" 3
     (by norm_num [wSelfRow, wRestRows]) (by decide) rfl).2.2.1⟩

/-- Claim C6: every shaped result of either query mode carries
`cosine_similarity = 1 - distance` for its row and the deterministic audio URL
`<base>/<id>.wav`. -/
theorem format_results_shape (base : String) (raw : List QueryRow) (r : QueryResult)
    (h : r ∈ format_results base raw) :
    r.cosine_similarity = 1 - r.distance ∧
    r.audio_url = base ++ "/" ++ r.id ++ ".wav" := by
  obtain ⟨x, hx, rfl⟩ := List.mem_map.mp h
  exact ⟨rfl, rfl⟩

/-- Witness for C6 on a concrete formatted row. -/
theorem format_results_shape_witness :
    ({ id := "B", distance := 1, cosine_similarity := 0
       metadata := wRecB.metadata, audio_url := "http://store/B.wav" } : QueryResult) ∈
      format_results "http://store" wRanked ∧
    ((0 : ℚ) = 1 - 1 ∧ "http://store/B.wav" = "http://store" ++ "/" ++ "B" ++ ".wav") :=
  ⟨by norm_num [format_results, wRanked, getAudioUrl]; rfl,
   format_results_shape "http://store" wRanked
     { id := "B", distance := 1, cosine_similarity := 0
       metadata := wRecB.metadata, audio_url := "http://store/B.wav" }
     (by norm_num [format_results, wRanked, getAudioUrl]; rfl)⟩

theorem download_fs_cases (cenv : ConvertEnv) :
    (download_and_convert_preview cenv).fs =
      (if (download_and_convert_preview cenv).result.success = true
        then [tempWavFile] else []) := by
  unfold download_and_convert_preview
  split
  · simp
  · split <;> simp

theorem process_song_fs_empty (env : SongEnv) (trackId : String) (skipExisting : Bool)
    (coll : List IndexRec) : (process_song env trackId skipExisting coll).fs = [] := by
  have h := download_fs_cases env.convert
  by_cases hs : (download_and_convert_preview env.convert).result.success = true
  · rw [if_pos hs] at h
    unfold process_song
    repeat' split
    all_goals try simp_all [tempM4aFile, tempWavFile]
    all_goals repeat' split
    all_goals rfl
  · rw [if_neg hs] at h
    unfold process_song
    repeat' split
    all_goals try simp_all [tempM4aFile, tempWavFile]
    all_goals repeat' split
    all_goals rfl

/-- Claim C7: on every exit path of `download_and_convert_preview` the downloaded
`.m4a` is gone, the partial `.wav` is gone on the transcoder-failure and exception
paths, only a successfully transcoded artifact survives the call, and
`process_song` leaves no temporary file behind on any of its exit paths (the
`finally` removes the WAV whether or not upload/embed/index succeeded). -/
theorem temp_file_cleanup (cenv : ConvertEnv) (env : SongEnv) (trackId : String)
    (skipExisting : Bool) (coll : List IndexRec) :
    tempM4aFile ∉ (download_and_convert_preview cenv).fs ∧
    (download_and_convert_preview cenv).fs =
      (if (download_and_convert_preview cenv).result.success = true
        then [tempWavFile] else []) ∧
    (process_song env trackId skipExisting coll).fs = [] := by
  refine ⟨?_, download_fs_cases cenv, process_song_fs_empty env trackId skipExisting coll⟩
  rw [download_fs_cases cenv]
  split <;> simp [tempM4aFile, tempWavFile]

/-- Claim C8: a fetched track without a preview URL is reported `failed` with a
message mentioning "preview", after only the catalog fetch — no download, no
object-store call, no embedding call, no index write, collection unchanged. -/
theorem no_preview_fails_early (env : SongEnv) (trackId : String) (skipExisting : Bool)
    (coll : List IndexRec) (song : CatalogSong) (rest : List CatalogSong)
    (hskip : (skipExisting && song_exists_in_chromadb trackId coll env.lookupFail) = false)
    (hcat : env.catalog.success = true)
    (hdata : env.catalog.data = song :: rest)
    (hprev : previewMissing (extractPreviewUrl song.attributes) = true) :
    (process_song env trackId skipExisting coll).outcome.status = "failed" ∧
    (process_song env trackId skipExisting coll).outcome.message = "No preview URL available" ∧
    (∃ pre post, (process_song env trackId skipExisting coll).outcome.message.toList =
      pre ++ "preview".toList ++ post) ∧
    (process_song env trackId skipExisting coll).effects = [Effect.fetchCatalog] ∧
    (process_song env trackId skipExisting coll).coll = coll ∧
    (process_song env trackId skipExisting coll).fs = [] := by
  have hrun : process_song env trackId skipExisting coll =
      { outcome := { status := "failed", message := "No preview URL available" }
        coll := coll, effects := [.fetchCatalog], fs := [] } := by
    simp [process_song, hskip, hcat, hdata, hprev]
  rw [hrun]
  refine ⟨rfl, rfl, ⟨"No ".toList, " URL available".toList, ?_⟩, rfl, rfl, rfl⟩
  show ("No preview URL available").toList =
    "No ".toList ++ "preview".toList ++ " URL available".toList
  decide

/-- Attributes without any preview object, for the C8 witness. -/
def wAttrsNoPreview : SongAttrs := { wAttrs with previews := [] }

/-- Oracle whose catalog fetch succeeds but yields no preview URL. -/
def wSongEnvNoPreview : SongEnv :=
  { wSongEnvOk with catalog := { success := true, data := [{ attributes := wAttrsNoPreview }] } }

/-- Witness for C8 on track "C" with a preview-less catalog payload. -/
theorem no_preview_fails_early_witness :
    ((false && song_exists_in_chromadb "C" wColl wSongEnvNoPreview.lookupFail) = false) ∧
    wSongEnvNoPreview.catalog.success = true ∧
    wSongEnvNoPreview.catalog.data = [{ attributes := wAttrsNoPreview }] ∧
    previewMissing (extractPreviewUrl wAttrsNoPreview) = true ∧
    (process_song wSongEnvNoPreview "C" false wColl).outcome.status = "failed" ∧
    (process_song wSongEnvNoPreview "C" false wColl).effects = [Effect.fetchCatalog] :=
  ⟨by decide, rfl, rfl, by decide,
   (no_preview_fails_early wSongEnvNoPreview "C" false wColl
     { attributes := wAttrsNoPreview } [] (by decide) rfl rfl (by decide)).1,
   (no_preview_fails_early wSongEnvNoPreview "C" false wColl
     { attributes := wAttrsNoPreview } [] (by decide) rfl rfl (by decide)).2.2.2.1⟩

/-- Claim C9: the token validity `exp - iat` is clamped to at most 180 days: a
request for more than 180 days expires 180 days from issuance, a request for
d ≤ 180 days expires d days from issuance. -/
theorem token_validity_clamped (teamId : String) (now expirationDays : Nat) :
    (generate_apple_developer_token teamId now expirationDays).exp -
      (generate_apple_developer_token teamId now expirationDays).iat ≤
      180 * secondsPerDay ∧
    (expirationDays ≤ 180 →
      (generate_apple_developer_token teamId now expirationDays).exp -
        (generate_apple_developer_token teamId now expirationDays).iat =
        expirationDays * secondsPerDay) ∧
    (180 ≤ expirationDays →
      (generate_apple_developer_token teamId now expirationDays).exp -
        (generate_apple_developer_token teamId now expirationDays).iat =
        180 * secondsPerDay) := by
  simp only [generate_apple_developer_token, secondsPerDay]
  refine ⟨?_, fun h => ?_, fun h => ?_⟩ <;> omega

/-- Witness for C9: a 200-day request yields a 180-day token. -/
theorem token_validity_clamped_witness :
    180 ≤ 200 ∧
    (generate_apple_developer_token "TEAM" 1000 200).exp -
      (generate_apple_developer_token "TEAM" 1000 200).iat = 180 * secondsPerDay :=
  ⟨by decide, (token_validity_clamped "TEAM" 1000 200).2.2 (by decide)⟩

/-- Claim C10: the existence check never raises — a failing index lookup yields
`false` — so with skip enabled a track whose presence cannot be determined is
treated as absent and processed exactly as in a skip-disabled run. -/
theorem lookup_failure_treated_absent (env : SongEnv) (trackId : String)
    (coll : List IndexRec) (e : String) (hfail : env.lookupFail = some e) :
    song_exists_in_chromadb trackId coll env.lookupFail = false ∧
    process_song env trackId true coll = process_song env trackId false coll := by
  have hex : song_exists_in_chromadb trackId coll env.lookupFail = false := by
    rw [hfail]
    rfl
  refine ⟨hex, ?_⟩
  simp [process_song, hex]

/-- Oracle whose index lookup raises, for the C10 witness. -/
def wSongEnvLookupFail : SongEnv :=
  { wSongEnvOk with lookupFail := some "connection error" }

/-- Witness for C10: with the lookup failing, song "A" (present in `wColl`) is
re-processed rather than skipped. -/
theorem lookup_failure_treated_absent_witness :
    wSongEnvLookupFail.lookupFail = some "connection error" ∧
    (song_exists_in_chromadb "A" wColl wSongEnvLookupFail.lookupFail = false ∧
     process_song wSongEnvLookupFail "A" true wColl =
       process_song wSongEnvLookupFail "A" false wColl) :=
  ⟨rfl, lookup_failure_treated_absent wSongEnvLookupFail "A" wColl "connection error" rfl⟩
